import Mathlib

/-!
Verification of the ruukh reconciliation core.

A shallow embedding of the two source files of the repository:

* `src/dom_ruukh/src/vcomponent.rs` — the type-erased component wrapper
  (`ComponentWrapper<COMP>` / `ComponentManager`): `render_walk`, `patch`,
  `remove`, `node`, `try_cast`.
* `src/src/lib.rs` — the update scheduler (`MessageSender::do_react`,
  `MessageReceiver::react_on_message`, `app_message_channel`) and the mount
  entry point (`AppMount for str`).

External collaborators (the element/text diffing layer for `KeyedVNodes`, the
document host, `web_sys` lookups) are not under `src/`; they are modelled from
the spec where a claim needs them, and each such definition is marked
`Modelled from the spec:`.

Machine-level conventions of the embedding:

* The source's recursion in `render_walk` runs on explicit fuel; running out of
  fuel yields the outcome `Outcome.diverge`, so non-termination is observable.
* A Rust `panic!` / `.unwrap()` failure is the outcome `Outcome.panic`.
* A `JsValue` error propagated with `?` is `Outcome.err`.
* Every operation additionally returns the trace of observable events it
  produced (lifecycle hooks invoked, document mutations attempted), in order.
-/

/-- A handle to a live document node (`web_sys::Node`). -/
abbrev Node := Nat

/-- The host's native failure payload (`JsValue` used as an error). -/
abbrev DomError := Nat

/-- How a reconciliation operation ends in the embedding. -/
inductive Outcome : Type where
  | ok : Outcome
  | err : DomError → Outcome
  | panic : Outcome
  | diverge : Outcome
  deriving DecidableEq, Repr

/-- Modelled from the spec: the document host. The host's primitive mutation
operations are consumed, not implemented, by the core; the two flags say
whether subtree-insertion and subtree-removal primitives succeed. -/
structure Host : Type where
  patch_ok : Bool
  remove_ok : Bool
  deriving DecidableEq, Repr

/-- Modelled from the spec: `KeyedVNodes` is "a VNode plus an optional stable
key". Its own diff/patch machinery (element/text nodes) is an external
collaborator not under `src/`; for this development a rendered subtree is its
key, the document node it occupies at its root once attached, and whether it
is currently attached to the document. -/
structure KeyedVNodes : Type where
  key : Option Nat
  root_node : Node
  attached : Bool
  deriving DecidableEq, Repr

/-- Modelled from the spec: `KeyedVNodes::patch` (the element/text diffing
layer, not under `src/`) diffs the freshly produced subtree against `old` and
attaches it into the document host, failing exactly when a document operation
fails. -/
def KeyedVNodes.patch (host : Host) (t : KeyedVNodes) (old : Option KeyedVNodes)
    (parent : Node) (nxt : Option Node) : Except DomError KeyedVNodes :=
  if host.patch_ok then .ok { t with attached := true } else .error 0

/-- Modelled from the spec: `KeyedVNodes::remove` (not under `src/`) detaches
the subtree from the document host, failing exactly when a document operation
fails. -/
def KeyedVNodes.remove (host : Host) (t : KeyedVNodes) (parent : Node) :
    Except DomError Unit :=
  if host.remove_ok then .ok () else .error 0

/-- Modelled from the spec: `KeyedVNodes::node` (not under `src/`) is the
concrete document node the subtree currently occupies at its root, none if it
is not attached. -/
def KeyedVNodes.node (t : KeyedVNodes) : Option Node :=
  if t.attached then some t.root_node else none

/-- The lifecycle interface every component exposes to the core
(`RenderableComponent` in the source; the hook list is spec §6). `C` is the
component instance type, `P` its props type, `S` its state type. The hooks
`created`/`updated`/`destroyed` are user callbacks whose invocations the
embedding records as events, so they need no model function here. -/
structure RenderableComponent (C P S : Type) : Type where
  init : P → S → C
  defaultState : S
  render : C → KeyedVNodes
  update : C → P → Option P × C
  is_state_dirty : C → Bool
  refresh_state : C → Bool × C
  is_props_dirty : C → Bool

/-- A universe of concrete component types. Each index stands for one concrete
`COMP : RenderableComponent` instantiation; distinct indices model component
types with distinct runtime `TypeId`s — the identity `ComponentWrapper::try_cast`
is meant to compare (though, as its definition below records, the source's
check never actually matches any of them). -/
structure Universe : Type 1 where
  Idx : Type
  deq : DecidableEq Idx
  C : Idx → Type
  P : Idx → Type
  S : Idx → Type
  model : ∀ i, RenderableComponent (C i) (P i) (S i)

attribute [instance] Universe.deq

/-- Observable events of a reconciliation operation, in order of occurrence:
lifecycle hooks invoked on a component of type `i`, render calls, and document
mutations attempted (`dom_patch` records the diff base handed to the inner
`KeyedVNodes::patch`). -/
inductive Event (U : Universe) : Type where
  | created (i : U.Idx)
  | updated (i : U.Idx) (old_props : U.P i)
  | destroyed (i : U.Idx)
  | rendered (i : U.Idx)
  | dom_patch (i : U.Idx) (base : Option KeyedVNodes) (parent : Node) (nxt : Option Node)
  | dom_remove (i : U.Idx) (parent : Node)

namespace Event

/-- Is this event an invocation of the `created` hook? -/
def is_created {U : Universe} : Event U → Bool
  | .created _ => true
  | _ => false

/-- Is this event an invocation of the `updated` hook? -/
def is_updated {U : Universe} : Event U → Bool
  | .updated _ _ => true
  | _ => false

/-- Is this event an invocation of the `destroyed` hook? -/
def is_destroyed {U : Universe} : Event U → Bool
  | .destroyed _ => true
  | _ => false

/-- Is this event a `render` call on the component instance? -/
def is_rendered {U : Universe} : Event U → Bool
  | .rendered _ => true
  | _ => false

/-- Is this event a document-patch attempt? -/
def is_dom_patch {U : Universe} : Event U → Bool
  | .dom_patch _ _ _ _ => true
  | _ => false

/-- The diff base handed to the inner `KeyedVNodes::patch`, when this event is
a document-patch attempt. -/
def patch_base {U : Universe} : Event U → Option (Option KeyedVNodes)
  | .dom_patch _ base _ _ => some base
  | _ => none

end Event

/-- `ComponentWrapper<COMP>` (vcomponent.rs line 23): at most one live
instance of the component type at index `i`, its stored props, and its most
recent rendered subtree. -/
structure ComponentWrapper (U : Universe) (i : U.Idx) : Type where
  component : Option (U.C i)
  props : Option (U.P i)
  cached_render : Option KeyedVNodes

/-- `ComponentWrapper::new` (vcomponent.rs line 30). -/
def ComponentWrapper.new (U : Universe) (i : U.Idx) (props : U.P i) :
    ComponentWrapper U i :=
  ⟨none, some props, none⟩

/-- A `Box<ComponentManager>`: a component wrapper with its concrete type
erased, keeping only the runtime type index for `Any`-based downcasting. -/
structure ErasedManager (U : Universe) : Type where
  idx : U.Idx
  w : ComponentWrapper U idx

/-- `ComponentWrapper::try_cast` (vcomponent.rs lines 38-57). The function is
written to reinterpret an erased manager as a wrapper of the concrete type at
index `i` when the runtime types match, but line 43 casts `&other` — a
reference to the `Box<dyn ComponentManager>` itself, not to the trait object
it wraps — to `&Any`. The `any.is::<ComponentWrapper<COMP>>()` check on line
44 therefore compares the runtime type `Box<dyn ComponentManager>` against
`ComponentWrapper<COMP>` and is false for every input and every `COMP`:
`same_type` is never set, the downcast branch (lines 49-53) is dead code, and
`try_cast` always returns the erased manager untouched in `Err`, even when the
two wrappers have the same concrete component type. -/
def ComponentWrapper.try_cast (U : Universe) (i : U.Idx) (other : ErasedManager U) :
    Except (ErasedManager U) (ComponentWrapper U i) :=
  .error other

/-- The result of one reconciliation operation: how it ended, the wrapper state
it left behind, and the events it produced. -/
structure StepResult (U : Universe) (i : U.Idx) : Type where
  out : Outcome
  w : ComponentWrapper U i
  evs : List (Event U)

namespace ComponentManager

/-- One iteration of the body of `ComponentManager::render_walk` for
`ComponentWrapper<COMP>` (vcomponent.rs lines 101-125): either the body stops
the whole call (a `?`-propagated error or an `unwrap` panic), or it falls
through to the unconditional tail call on line 126 with the updated wrapper
and the events produced so far. -/
inductive WalkStep (U : Universe) (i : U.Idx) : Type where
  | stop : StepResult U i → WalkStep U i
  | next : ComponentWrapper U i → List (Event U) → WalkStep U i

/-- The `state_changed` computation at the top of the already-mounted branch
(vcomponent.rs lines 113-117): when the instance reports its state dirty,
commit the pending state with `refresh_state` (whose flag and mutated instance
are returned); otherwise report `false` with the instance untouched. -/
def state_change (U : Universe) (i : U.Idx) (comp : U.C i) : Bool × U.C i :=
  if (U.model i).is_state_dirty comp then (U.model i).refresh_state comp
  else (false, comp)

/-- The body of `render_walk` before the tail call (vcomponent.rs lines
102-125). The first branch mounts: take the stored props (`unwrap` panics when
absent), `init` with default state, fire `created`, render, patch the first
render with no previous tree, then store instance and cache. The second branch
re-renders when state became dirty (committing pending state first) or props
are dirty, diffing against the taken cache; otherwise it does nothing. -/
def render_walk_body (U : Universe) (host : Host) (i : U.Idx)
    (w : ComponentWrapper U i) (parent : Node) (nxt : Option Node) :
    WalkStep U i :=
  if w.component.isNone then
    match w.props with
    | none => .stop ⟨.panic, w, []⟩
    | some props =>
      let w1 : ComponentWrapper U i := { w with props := none }
      let comp0 := (U.model i).init props (U.model i).defaultState
      let initial_render := (U.model i).render comp0
      let evs : List (Event U) := [.created i, .rendered i, .dom_patch i none parent nxt]
      match KeyedVNodes.patch host initial_render none parent nxt with
      | .error e => .stop ⟨.err e, w1, evs⟩
      | .ok patched =>
        .next { w1 with component := some comp0, cached_render := some patched } evs
  else
    match w.component with
    | none => .stop ⟨.panic, w, []⟩
    | some comp =>
      let sc := state_change U i comp
      if sc.1 || (U.model i).is_props_dirty sc.2 then
        let rerender := (U.model i).render sc.2
        let cached := w.cached_render
        let w1 : ComponentWrapper U i :=
          { w with component := some sc.2, cached_render := none }
        let evs : List (Event U) := [.rendered i, .dom_patch i cached parent nxt]
        match KeyedVNodes.patch host rerender cached parent nxt with
        | .error e => .stop ⟨.err e, w1, evs⟩
        | .ok patched => .next { w1 with cached_render := some patched } evs
      else
        .next { w with component := some sc.2 } []

/-- `ComponentManager::render_walk` (vcomponent.rs lines 101-127): the body,
followed by the unconditional tail call `self.render_walk(parent, next)` on
line 126. The tail call consumes one unit of fuel; exhausted fuel is the
divergence marker. -/
def render_walk (U : Universe) (host : Host) (i : U.Idx) :
    Nat → ComponentWrapper U i → Node → Option Node → StepResult U i
  | 0, w, _, _ => ⟨.diverge, w, []⟩
  | fuel+1, w, parent, nxt =>
    match render_walk_body U host i w parent nxt with
    | .stop r => r
    | .next w1 evs =>
      let r := render_walk U host i fuel w1 parent nxt
      ⟨r.out, r.w, evs ++ r.evs⟩

/-- `ComponentManager::remove` (vcomponent.rs lines 158-165): take the cache
(no-op success when there is none), detach it from the document, then invoke
`destroyed` on the component instance (`unwrap` panics when absent). -/
def remove (U : Universe) (host : Host) (i : U.Idx)
    (w : ComponentWrapper U i) (parent : Node) : StepResult U i :=
  match w.cached_render with
  | none => ⟨.ok, w, []⟩
  | some cached =>
    let w1 : ComponentWrapper U i := { w with cached_render := none }
    match KeyedVNodes.remove host cached parent with
    | .error e => ⟨.err e, w1, [.dom_remove i parent]⟩
    | .ok _ =>
      match w1.component with
      | none => ⟨.panic, w1, [.dom_remove i parent]⟩
      | some _ => ⟨.ok, w1, [.dom_remove i parent, .destroyed i]⟩

/-- `ComponentManager::patch` (vcomponent.rs lines 129-156): when an old
occupant exists, `try_cast` it. The cast-success branch (lines 137-148) would
reuse the old live instance — passing the new props to `update` and firing
`updated` with the old props exactly when `update` returns them — and
transplant its cached render; it is embedded here as written, but since
`try_cast` never succeeds (see its definition) it is dead code, like in the
source. On cast failure the old occupant is removed from the document. Either
way, fall through to `render_walk`. -/
def patch (U : Universe) (host : Host) (i : U.Idx) (fuel : Nat)
    (w : ComponentWrapper U i) (old : Option (ErasedManager U))
    (parent : Node) (nxt : Option Node) : StepResult U i :=
  match old with
  | none => render_walk U host i fuel w parent nxt
  | some o =>
    match ComponentWrapper.try_cast U i o with
    | .ok same =>
      match same.component with
      | none => ⟨.panic, w, []⟩
      | some comp =>
        match w.props with
        | none => ⟨.panic, w, []⟩
        | some new_props =>
          let ur := (U.model i).update comp new_props
          let evs0 : List (Event U) :=
            match ur.1 with
            | some old_props => [.updated i old_props]
            | none => []
          let w1 : ComponentWrapper U i :=
            { w with props := none, component := some ur.2,
                     cached_render := same.cached_render }
          let r := render_walk U host i fuel w1 parent nxt
          ⟨r.out, r.w, evs0 ++ r.evs⟩
    | .error not_same =>
      let rr := remove U host not_same.idx not_same.w parent
      match rr.out with
      | .ok =>
        let r := render_walk U host i fuel w parent nxt
        ⟨r.out, r.w, rr.evs ++ r.evs⟩
      | o1 => ⟨o1, w, rr.evs⟩

/-- `ComponentManager::node` (vcomponent.rs lines 167-169). -/
def node (U : Universe) (i : U.Idx) (w : ComponentWrapper U i) : Option Node :=
  w.cached_render.bind (fun t => KeyedVNodes.node t)

end ComponentManager

/-! ## The update scheduler (`src/src/lib.rs`) -/

/-- The observable state of the scheduling layer built by `app_message_channel`
(lib.rs lines 181-195): the shared `is_queued` flag (initially `false`), plus
counters for the wake-up messages currently posted on the `MessageChannel` but
not yet delivered, the total number of messages ever posted, and the number of
render passes run. -/
structure SchedState : Type where
  is_queued : Bool
  in_flight : Nat
  posts : Nat
  renders : Nat
  deriving DecidableEq, Repr

/-- The scheduler state right after `app_message_channel` (lib.rs line 184):
the `is_queued` flag starts `false`, nothing posted, nothing rendered. -/
def SchedState.init : SchedState := ⟨false, 0, 0, 0⟩

/-- `MessageSender::do_react` (lib.rs lines 234-243): when `is_queued` is
false, set it and post exactly one message on the port; when it is already
true, do nothing. -/
def do_react (s : SchedState) : SchedState :=
  if s.is_queued then s
  else { s with is_queued := true, in_flight := s.in_flight + 1, posts := s.posts + 1 }

/-- The closure `MessageReceiver::react_on_message` installs as the port's
`onmessage` handler (lib.rs lines 206-219), fired on delivery of one posted
wake-up: it runs `handler()` — the render pass, during which the running
components call `do_react` some `k` times — and only afterwards resets
`is_queued` to `false`. -/
def react_on_message (k : Nat) (s : SchedState) : SchedState :=
  let s1 : SchedState := { s with in_flight := s.in_flight - 1, renders := s.renders + 1 }
  let s2 := do_react^[k] s1
  { s2 with is_queued := false }

/-- The scheduler states reachable from `app_message_channel`'s initial state:
components may call `do_react` at any time, and the port may deliver a posted
wake-up (running the handler, which itself may call `do_react` `k` times)
whenever at least one message is in flight. -/
inductive SchedReach : SchedState → Prop where
  | init : SchedReach SchedState.init
  | step_react : ∀ s, SchedReach s → SchedReach (do_react s)
  | step_message : ∀ s k, SchedReach s → 1 ≤ s.in_flight →
      SchedReach (react_on_message k s)

/-! ## The mount entry point (`src/src/lib.rs`) -/

/-- Modelled from the spec: the live host document consumed by
`web_sys::Document::get_element_by_id` — a finite association of element ids to
live elements. -/
structure HostDocument : Type where
  elems : List (String × Node)
  deriving DecidableEq, Repr

/-- Modelled from the spec: `get_element_by_id` resolves an identifier string
to a live element of the host document, if one exists. -/
def HostDocument.get_element_by_id (d : HostDocument) (id : String) : Option Node :=
  (d.elems.find? (fun p => p.1 == id)).map (fun p => p.2)

/-- How mounting resolves: either a live element to mount on, or a
process-terminating `panic!`. There is no recoverable-error constructor,
mirroring that `app_mount` returns a bare `Element`. -/
inductive MountOutcome : Type where
  | mounted (e : Node)
  | panicked
  deriving DecidableEq, Repr

/-- `impl AppMount for str` (lib.rs lines 258-272): look the identifier up
with `get_element_by_id` and `panic!` when no element is found. -/
def app_mount_str (d : HostDocument) (id : String) : MountOutcome :=
  match d.get_element_by_id id with
  | some e => .mounted e
  | none => .panicked

/-! ## Reachable wrapper states -/

/-- Folds the event trace of one operation into the "live" history flag of the
wrapper at index `i`: a document patch at this node makes it rendered, a
document removal at this node un-renders it; events of other components are
irrelevant to it. -/
def liveAfter (U : Universe) (i : U.Idx) (live : Bool) (evs : List (Event U)) : Bool :=
  evs.foldl
    (fun acc e =>
      match e with
      | .dom_patch j _ _ _ => if j = i then true else acc
      | .dom_remove j _ => if j = i then false else acc
      | _ => acc)
    live

/-- The wrapper states (with their rendered-and-not-removed history flag)
reachable at a tree position of component type `i` through the public
`ComponentManager` protocol, along executions in which no document operation
fails and no panic occurs (outcomes `ok` or `diverge`). A `patch` step may
hand in any old occupant (`try_cast` never succeeds, so nothing about the old
occupant is ever transplanted onto this wrapper). A patch step's history flag
folds only the events of the ensuing `render_walk`: those are exactly the
events concerning this wrapper's own subtree, while the removal events of the
old-occupant branch concern the previous occupant's subtree. -/
inductive WrapperReach (U : Universe) (i : U.Idx) :
    ComponentWrapper U i → Bool → Prop where
  | init : ∀ p, WrapperReach U i (ComponentWrapper.new U i p) false
  | step_walk : ∀ w live host fuel parent nxt,
      WrapperReach U i w live →
      (ComponentManager.render_walk U host i fuel w parent nxt).out = .ok ∨
        (ComponentManager.render_walk U host i fuel w parent nxt).out = .diverge →
      WrapperReach U i (ComponentManager.render_walk U host i fuel w parent nxt).w
        (liveAfter U i live (ComponentManager.render_walk U host i fuel w parent nxt).evs)
  | step_patch : ∀ w live host fuel (old : Option (ErasedManager U)) parent nxt,
      WrapperReach U i w live →
      (ComponentManager.patch U host i fuel w old parent nxt).out = .ok ∨
        (ComponentManager.patch U host i fuel w old parent nxt).out = .diverge →
      WrapperReach U i (ComponentManager.patch U host i fuel w old parent nxt).w
        (liveAfter U i live (ComponentManager.render_walk U host i fuel w parent nxt).evs)
  | step_remove : ∀ w live host parent,
      WrapperReach U i w live →
      (ComponentManager.remove U host i w parent).out = .ok ∨
        (ComponentManager.remove U host i w parent).out = .diverge →
      WrapperReach U i (ComponentManager.remove U host i w parent).w
        (liveAfter U i live (ComponentManager.remove U host i w parent).evs)

/-- The subtree `t` as attached into the document (what the modelled
`KeyedVNodes.patch` produces on success). -/
def KeyedVNodes.attach (t : KeyedVNodes) : KeyedVNodes :=
  { t with attached := true }

namespace ComponentManager

/-- The instance the mounting branch constructs: `COMP::init` applied to the
taken props and the default state (vcomponent.rs line 104). -/
def mounted_instance (U : Universe) (i : U.Idx) (p : U.P i) : U.C i :=
  (U.model i).init p (U.model i).defaultState

/-- Events produced by the mounting branch of `render_walk`'s body. -/
def mount_evs (U : Universe) (i : U.Idx) (parent : Node) (nxt : Option Node) :
    List (Event U) :=
  [.created i, .rendered i, .dom_patch i none parent nxt]

/-- Events produced by the re-rendering branch of `render_walk`'s body. -/
def rerender_evs (U : Universe) (i : U.Idx) (base : Option KeyedVNodes)
    (parent : Node) (nxt : Option Node) : List (Event U) :=
  [.rendered i, .dom_patch i base parent nxt]

theorem body_unmounted_panic (U : Universe) (host : Host) (i : U.Idx)
    (w : ComponentWrapper U i) (parent : Node) (nxt : Option Node)
    (hm : w.component = none) (hp : w.props = none) :
    render_walk_body U host i w parent nxt = .stop ⟨.panic, w, []⟩ := by
  unfold render_walk_body
  simp [hm, hp]

theorem body_unmounted_ok (U : Universe) (host : Host) (i : U.Idx)
    (w : ComponentWrapper U i) (parent : Node) (nxt : Option Node) (p : U.P i)
    (hm : w.component = none) (hp : w.props = some p) (hh : host.patch_ok = true) :
    render_walk_body U host i w parent nxt =
      .next ⟨some (mounted_instance U i p),
          none,
          some (KeyedVNodes.attach ((U.model i).render (mounted_instance U i p)))⟩
        (mount_evs U i parent nxt) := by
  unfold render_walk_body
  simp [hm, hp, KeyedVNodes.patch, hh, mount_evs, mounted_instance, KeyedVNodes.attach]

theorem body_unmounted_err (U : Universe) (host : Host) (i : U.Idx)
    (w : ComponentWrapper U i) (parent : Node) (nxt : Option Node) (p : U.P i)
    (hm : w.component = none) (hp : w.props = some p) (hh : host.patch_ok = false) :
    render_walk_body U host i w parent nxt =
      .stop ⟨.err 0, { w with props := none }, mount_evs U i parent nxt⟩ := by
  unfold render_walk_body
  simp [hm, hp, KeyedVNodes.patch, hh, mount_evs]

theorem body_mounted_clean (U : Universe) (host : Host) (i : U.Idx)
    (w : ComponentWrapper U i) (parent : Node) (nxt : Option Node) (comp : U.C i)
    (hm : w.component = some comp)
    (hc : ((state_change U i comp).1 ||
        (U.model i).is_props_dirty (state_change U i comp).2) = false) :
    render_walk_body U host i w parent nxt =
      .next { w with component := some (state_change U i comp).2 } [] := by
  unfold render_walk_body
  simp [hm, hc]

theorem body_mounted_dirty_ok (U : Universe) (host : Host) (i : U.Idx)
    (w : ComponentWrapper U i) (parent : Node) (nxt : Option Node) (comp : U.C i)
    (hm : w.component = some comp)
    (hc : ((state_change U i comp).1 ||
        (U.model i).is_props_dirty (state_change U i comp).2) = true)
    (hh : host.patch_ok = true) :
    render_walk_body U host i w parent nxt =
      .next { w with component := some (state_change U i comp).2,
                     cached_render :=
                       some (KeyedVNodes.attach ((U.model i).render (state_change U i comp).2)) }
        (rerender_evs U i w.cached_render parent nxt) := by
  unfold render_walk_body
  simp [hm, hc, KeyedVNodes.patch, hh, rerender_evs, KeyedVNodes.attach]

theorem body_mounted_dirty_err (U : Universe) (host : Host) (i : U.Idx)
    (w : ComponentWrapper U i) (parent : Node) (nxt : Option Node) (comp : U.C i)
    (hm : w.component = some comp)
    (hc : ((state_change U i comp).1 ||
        (U.model i).is_props_dirty (state_change U i comp).2) = true)
    (hh : host.patch_ok = false) :
    render_walk_body U host i w parent nxt =
      .stop ⟨.err 0,
        { w with component := some (state_change U i comp).2, cached_render := none },
        rerender_evs U i w.cached_render parent nxt⟩ := by
  unfold render_walk_body
  simp [hm, hc, KeyedVNodes.patch, hh, rerender_evs]

end ComponentManager

namespace ComponentManagerLemmas

open ComponentManager

theorem render_walk_mounted_no_lifecycle (U : Universe) (host : Host) (i : U.Idx) :
    ∀ (fuel : Nat) (w : ComponentWrapper U i) (parent : Node) (nxt : Option Node),
      w.component.isSome = true →
      ((render_walk U host i fuel w parent nxt).evs.countP Event.is_created = 0 ∧
        (render_walk U host i fuel w parent nxt).evs.countP Event.is_updated = 0 ∧
        (render_walk U host i fuel w parent nxt).evs.countP Event.is_destroyed = 0) ∧
      (render_walk U host i fuel w parent nxt).w.component.isSome = true
  | 0, w, parent, nxt, hm => by
    simp [render_walk, hm]
  | fuel+1, w, parent, nxt, hm => by
    obtain ⟨comp, hcomp⟩ := Option.isSome_iff_exists.mp hm
    unfold render_walk
    cases hcond : ((state_change U i comp).1 ||
        (U.model i).is_props_dirty (state_change U i comp).2) with
    | false =>
      rw [body_mounted_clean U host i w parent nxt comp hcomp hcond]
      have ih := render_walk_mounted_no_lifecycle U host i fuel
        { w with component := some (state_change U i comp).2 } parent nxt (by simp)
      simpa using ih
    | true =>
      cases hh : host.patch_ok with
      | false =>
        rw [body_mounted_dirty_err U host i w parent nxt comp hcomp hcond hh]
        simp [rerender_evs, Event.is_created, Event.is_updated, Event.is_destroyed]
      | true =>
        rw [body_mounted_dirty_ok U host i w parent nxt comp hcomp hcond hh]
        have ih := render_walk_mounted_no_lifecycle U host i fuel
          { w with component := some (state_change U i comp).2,
                   cached_render :=
                     some (KeyedVNodes.attach ((U.model i).render (state_change U i comp).2)) }
          parent nxt (by simp)
        simpa [rerender_evs, Event.is_created, Event.is_updated, Event.is_destroyed] using ih

theorem render_walk_mounted_first_base (U : Universe) (host : Host) (i : U.Idx) :
    ∀ (fuel : Nat) (w : ComponentWrapper U i) (parent : Node) (nxt : Option Node)
      (comp : U.C i) (e : Event U),
      w.component = some comp →
      (render_walk U host i fuel w parent nxt).evs.find? Event.is_dom_patch = some e →
      e.patch_base = some w.cached_render
  | 0, w, parent, nxt, comp, e, hm, hf => by
    simp [render_walk] at hf
  | fuel+1, w, parent, nxt, comp, e, hm, hf => by
    unfold render_walk at hf
    cases hcond : ((state_change U i comp).1 ||
        (U.model i).is_props_dirty (state_change U i comp).2) with
    | false =>
      rw [body_mounted_clean U host i w parent nxt comp hm hcond] at hf
      dsimp at hf
      exact render_walk_mounted_first_base U host i fuel
        { w with component := some (state_change U i comp).2 } parent nxt
        (state_change U i comp).2 e rfl hf
    | true =>
      cases hh : host.patch_ok with
      | false =>
        rw [body_mounted_dirty_err U host i w parent nxt comp hm hcond hh] at hf
        simp [rerender_evs, List.find?, Event.is_dom_patch, Event.is_rendered] at hf
        simp [← hf, Event.patch_base]
      | true =>
        rw [body_mounted_dirty_ok U host i w parent nxt comp hm hcond hh] at hf
        simp [rerender_evs, List.find?, Event.is_dom_patch] at hf
        simp [← hf, Event.patch_base]

theorem render_walk_clean (U : Universe) (host : Host) (i : U.Idx) :
    ∀ (fuel : Nat) (w : ComponentWrapper U i) (parent : Node) (nxt : Option Node)
      (comp : U.C i),
      w.component = some comp →
      (U.model i).is_state_dirty comp = false →
      (U.model i).is_props_dirty comp = false →
      render_walk U host i fuel w parent nxt = ⟨.diverge, w, []⟩
  | 0, w, parent, nxt, comp, hm, hsd, hpd => by
    simp [render_walk]
  | fuel+1, w, parent, nxt, comp, hm, hsd, hpd => by
    have hsc : state_change U i comp = (false, comp) := by
      simp [state_change, hsd]
    have hcond : ((state_change U i comp).1 ||
        (U.model i).is_props_dirty (state_change U i comp).2) = false := by
      simp [hsc, hpd]
    have heta : { w with component := some (state_change U i comp).2 } = w := by
      cases w
      simp_all [hsc]
    unfold render_walk
    rw [body_mounted_clean U host i w parent nxt comp hm hcond, heta]
    dsimp only
    rw [render_walk_clean U host i fuel w parent nxt comp hm hsd hpd]
    rfl

theorem try_cast_err (U : Universe) (i : U.Idx) (o : ErasedManager U) :
    ComponentWrapper.try_cast U i o = .error o := rfl

theorem render_walk_body_stop_out (U : Universe) (host : Host) (i : U.Idx)
    (w : ComponentWrapper U i) (parent : Node) (nxt : Option Node) (r : StepResult U i)
    (h : render_walk_body U host i w parent nxt = .stop r) :
    r.out ≠ .ok := by
  unfold render_walk_body at h
  dsimp only at h
  split at h
  · split at h
    · cases h; simp
    · split at h
      · cases h; simp
      · cases h
  · split at h
    · cases h; simp
    · split at h
      · split at h
        · cases h; simp
        · cases h
      · cases h

theorem render_walk_not_ok (U : Universe) (host : Host) (i : U.Idx)
    (fuel : Nat) (w : ComponentWrapper U i) (parent : Node) (nxt : Option Node) :
    (render_walk U host i fuel w parent nxt).out ≠ .ok := by
  induction fuel generalizing w with
  | zero => simp [render_walk]
  | succ n ih =>
    unfold render_walk
    split
    · exact render_walk_body_stop_out U host i w parent nxt _ (by assumption)
    · exact ih _

theorem patch_none_eq (U : Universe) (host : Host) (i : U.Idx) (fuel : Nat)
    (w : ComponentWrapper U i) (parent : Node) (nxt : Option Node) :
    patch U host i fuel w none parent nxt = render_walk U host i fuel w parent nxt := rfl

theorem patch_some_eq (U : Universe) (host : Host) (i : U.Idx) (fuel : Nat)
    (w : ComponentWrapper U i) (o : ErasedManager U) (parent : Node) (nxt : Option Node)
    (hok : (remove U host o.idx o.w parent).out = .ok) :
    patch U host i fuel w (some o) parent nxt =
      ⟨(render_walk U host i fuel w parent nxt).out,
       (render_walk U host i fuel w parent nxt).w,
       (remove U host o.idx o.w parent).evs ++
         (render_walk U host i fuel w parent nxt).evs⟩ := by
  unfold patch
  dsimp only
  rw [try_cast_err U i o]
  dsimp only
  rw [hok]

theorem patch_some_fail (U : Universe) (host : Host) (i : U.Idx) (fuel : Nat)
    (w : ComponentWrapper U i) (o : ErasedManager U) (parent : Node) (nxt : Option Node)
    (hfail : (remove U host o.idx o.w parent).out ≠ .ok) :
    patch U host i fuel w (some o) parent nxt =
      ⟨(remove U host o.idx o.w parent).out, w, (remove U host o.idx o.w parent).evs⟩ := by
  unfold patch
  dsimp only
  rw [try_cast_err U i o]
  dsimp only
  cases hro : (remove U host o.idx o.w parent).out with
  | ok => exact absurd hro hfail
  | err e => rfl
  | panic => rfl
  | diverge => rfl

/-- The structural invariant of claim C10: a cached render is only ever held
together with a live component instance, and an unmounted wrapper still holds
its initial props. -/
def WrapperInv (U : Universe) (i : U.Idx) (w : ComponentWrapper U i) : Prop :=
  (w.cached_render.isSome = true → w.component.isSome = true) ∧
  (w.component = none → w.props.isSome = true)

theorem render_walk_no_panic (U : Universe) (host : Host) (i : U.Idx) :
    ∀ (fuel : Nat) (w : ComponentWrapper U i) (parent : Node) (nxt : Option Node),
      WrapperInv U i w →
      (render_walk U host i fuel w parent nxt).out ≠ .panic ∧
      ((render_walk U host i fuel w parent nxt).out = .diverge →
        WrapperInv U i (render_walk U host i fuel w parent nxt).w)
  | 0, w, parent, nxt, hw => by
    refine ⟨by simp [render_walk], ?_⟩
    simpa [render_walk] using hw
  | fuel+1, w, parent, nxt, hw => by
    unfold render_walk
    cases hcomp : w.component with
    | none =>
      obtain ⟨p, hp⟩ := Option.isSome_iff_exists.mp (hw.2 hcomp)
      cases hh : host.patch_ok with
      | true =>
        rw [body_unmounted_ok U host i w parent nxt p hcomp hp hh]
        have ih := render_walk_no_panic U host i fuel
          ⟨some (mounted_instance U i p), none,
            some (KeyedVNodes.attach ((U.model i).render (mounted_instance U i p)))⟩
          parent nxt (by constructor <;> simp)
        simpa using ih
      | false =>
        rw [body_unmounted_err U host i w parent nxt p hcomp hp hh]
        simp
    | some comp =>
      cases hcond : ((state_change U i comp).1 ||
          (U.model i).is_props_dirty (state_change U i comp).2) with
      | false =>
        rw [body_mounted_clean U host i w parent nxt comp hcomp hcond]
        have ih := render_walk_no_panic U host i fuel
          { w with component := some (state_change U i comp).2 } parent nxt
          (by constructor <;> simp)
        simpa using ih
      | true =>
        cases hh : host.patch_ok with
        | false =>
          rw [body_mounted_dirty_err U host i w parent nxt comp hcomp hcond hh]
          simp
        | true =>
          rw [body_mounted_dirty_ok U host i w parent nxt comp hcomp hcond hh]
          have ih := render_walk_no_panic U host i fuel
            { w with component := some (state_change U i comp).2,
                     cached_render :=
                       some (KeyedVNodes.attach ((U.model i).render (state_change U i comp).2)) }
            parent nxt (by constructor <;> simp)
          simpa using ih

theorem remove_none_eq (U : Universe) (host : Host) (i : U.Idx)
    (w : ComponentWrapper U i) (parent : Node) (hcr : w.cached_render = none) :
    remove U host i w parent = ⟨.ok, w, []⟩ := by
  unfold remove
  rw [hcr]

theorem remove_some_eq (U : Universe) (host : Host) (i : U.Idx)
    (w : ComponentWrapper U i) (parent : Node) (t : KeyedVNodes) (c : U.C i)
    (hcr : w.cached_render = some t) (hc : w.component = some c)
    (hh : host.remove_ok = true) :
    remove U host i w parent =
      ⟨.ok, { w with cached_render := none }, [.dom_remove i parent, .destroyed i]⟩ := by
  unfold remove
  rw [hcr]
  dsimp only
  rw [show KeyedVNodes.remove host t parent = .ok () from by
        simp [KeyedVNodes.remove, hh]]
  dsimp only
  rw [hc]

theorem remove_some_err (U : Universe) (host : Host) (i : U.Idx)
    (w : ComponentWrapper U i) (parent : Node) (t : KeyedVNodes)
    (hcr : w.cached_render = some t) (hh : host.remove_ok = false) :
    remove U host i w parent =
      ⟨.err 0, { w with cached_render := none }, [.dom_remove i parent]⟩ := by
  unfold remove
  rw [hcr]
  dsimp only
  rw [show KeyedVNodes.remove host t parent = .error 0 from by
        simp [KeyedVNodes.remove, hh]]

theorem remove_some_panic (U : Universe) (host : Host) (i : U.Idx)
    (w : ComponentWrapper U i) (parent : Node) (t : KeyedVNodes)
    (hcr : w.cached_render = some t) (hc : w.component = none)
    (hh : host.remove_ok = true) :
    remove U host i w parent =
      ⟨.panic, { w with cached_render := none }, [.dom_remove i parent]⟩ := by
  unfold remove
  rw [hcr]
  dsimp only
  rw [show KeyedVNodes.remove host t parent = .ok () from by
        simp [KeyedVNodes.remove, hh]]
  dsimp only
  rw [hc]

theorem remove_out_ne_diverge (U : Universe) (host : Host) (i : U.Idx)
    (w : ComponentWrapper U i) (parent : Node) :
    (remove U host i w parent).out ≠ .diverge := by
  cases hcr : w.cached_render with
  | none => rw [remove_none_eq U host i w parent hcr]; simp
  | some t =>
    cases hh : host.remove_ok with
    | false => rw [remove_some_err U host i w parent t hcr hh]; simp
    | true =>
      cases hc : w.component with
      | none => rw [remove_some_panic U host i w parent t hcr hc hh]; simp
      | some c => rw [remove_some_eq U host i w parent t c hcr hc hh]; simp

theorem remove_no_panic (U : Universe) (host : Host) (i : U.Idx)
    (w : ComponentWrapper U i) (parent : Node)
    (h1 : w.cached_render.isSome = true → w.component.isSome = true) :
    (remove U host i w parent).out ≠ .panic := by
  cases hcr : w.cached_render with
  | none => rw [remove_none_eq U host i w parent hcr]; simp
  | some t =>
    obtain ⟨c, hc⟩ := Option.isSome_iff_exists.mp (h1 (by simp [hcr]))
    cases hh : host.remove_ok with
    | true => rw [remove_some_eq U host i w parent t c hcr hc hh]; simp
    | false => rw [remove_some_err U host i w parent t hcr hh]; simp

theorem remove_wrapper_inv (U : Universe) (host : Host) (i : U.Idx)
    (w : ComponentWrapper U i) (parent : Node) (hw : WrapperInv U i w) :
    WrapperInv U i (remove U host i w parent).w := by
  cases hcr : w.cached_render with
  | none => rw [remove_none_eq U host i w parent hcr]; exact hw
  | some t =>
    cases hh : host.remove_ok with
    | false =>
      rw [remove_some_err U host i w parent t hcr hh]
      exact ⟨by simp, hw.2⟩
    | true =>
      cases hc : w.component with
      | none =>
        rw [remove_some_panic U host i w parent t hcr hc hh]
        exact ⟨by simp, hw.2⟩
      | some c =>
        rw [remove_some_eq U host i w parent t c hcr hc hh]
        exact ⟨by simp, by simp [hc]⟩

theorem patch_wrapper_inv (U : Universe) (host : Host) (i : U.Idx)
    (fuel : Nat) (w : ComponentWrapper U i) (old : Option (ErasedManager U))
    (parent : Node) (nxt : Option Node) (hw : WrapperInv U i w)
    (hout : (patch U host i fuel w old parent nxt).out = .ok ∨
      (patch U host i fuel w old parent nxt).out = .diverge) :
    WrapperInv U i (patch U host i fuel w old parent nxt).w := by
  cases old with
  | none =>
    rw [patch_none_eq] at hout ⊢
    rcases hout with hout | hout
    · exact absurd hout (render_walk_not_ok U host i fuel w parent nxt)
    · exact (render_walk_no_panic U host i fuel w parent nxt hw).2 hout
  | some o =>
    by_cases hro : (remove U host o.idx o.w parent).out = .ok
    · rw [patch_some_eq U host i fuel w o parent nxt hro] at hout ⊢
      dsimp only at hout ⊢
      rcases hout with hout | hout
      · exact absurd hout (render_walk_not_ok U host i fuel w parent nxt)
      · exact (render_walk_no_panic U host i fuel w parent nxt hw).2 hout
    · rw [patch_some_fail U host i fuel w o parent nxt hro] at hout ⊢
      exact hw

theorem liveAfter_append (U : Universe) (i : U.Idx) (l : Bool)
    (a b : List (Event U)) :
    liveAfter U i l (a ++ b) = liveAfter U i (liveAfter U i l a) b := by
  simp [liveAfter, List.foldl_append]

theorem liveAfter_mount_evs (U : Universe) (i : U.Idx) (l : Bool)
    (parent : Node) (nxt : Option Node) :
    liveAfter U i l (mount_evs U i parent nxt) = true := by
  simp [liveAfter, mount_evs]

theorem liveAfter_rerender_evs (U : Universe) (i : U.Idx) (l : Bool)
    (base : Option KeyedVNodes) (parent : Node) (nxt : Option Node) :
    liveAfter U i l (rerender_evs U i base parent nxt) = true := by
  simp [liveAfter, rerender_evs]

/-- The cache/history invariant of claim C8: the wrapper holds a cached render
exactly when its position has been rendered into the document since the last
removal, and any held cache is attached to the document. -/
def CacheInv (U : Universe) (i : U.Idx) (w : ComponentWrapper U i) (live : Bool) : Prop :=
  w.cached_render.isSome = live ∧
  ∀ t, w.cached_render = some t → t.attached = true

theorem render_walk_cache (U : Universe) (host : Host) (i : U.Idx) :
    ∀ (fuel : Nat) (w : ComponentWrapper U i) (parent : Node) (nxt : Option Node)
      (live : Bool), CacheInv U i w live →
      (render_walk U host i fuel w parent nxt).out = .diverge →
      CacheInv U i (render_walk U host i fuel w parent nxt).w
        (liveAfter U i live (render_walk U host i fuel w parent nxt).evs)
  | 0, w, parent, nxt, live, hw, _ => by
    simpa [render_walk, liveAfter] using hw
  | fuel+1, w, parent, nxt, live, hw, hdiv => by
    unfold render_walk at hdiv ⊢
    cases hcomp : w.component with
    | none =>
      cases hp : w.props with
      | none =>
        rw [body_unmounted_panic U host i w parent nxt hcomp hp] at hdiv
        simp at hdiv
      | some p =>
        cases hh : host.patch_ok with
        | false =>
          rw [body_unmounted_err U host i w parent nxt p hcomp hp hh] at hdiv
          simp at hdiv
        | true =>
          rw [body_unmounted_ok U host i w parent nxt p hcomp hp hh] at hdiv ⊢
          dsimp only at hdiv ⊢
          rw [liveAfter_append, liveAfter_mount_evs]
          exact render_walk_cache U host i fuel _ parent nxt true
            (by constructor <;> simp [KeyedVNodes.attach]) hdiv
    | some comp =>
      cases hcond : ((state_change U i comp).1 ||
          (U.model i).is_props_dirty (state_change U i comp).2) with
      | false =>
        rw [body_mounted_clean U host i w parent nxt comp hcomp hcond] at hdiv ⊢
        dsimp only at hdiv ⊢
        rw [show ([] : List (Event U)) ++
            (render_walk U host i fuel { w with component := some (state_change U i comp).2 }
              parent nxt).evs =
            (render_walk U host i fuel { w with component := some (state_change U i comp).2 }
              parent nxt).evs from rfl]
        exact render_walk_cache U host i fuel _ parent nxt live
          (by exact ⟨hw.1, hw.2⟩) hdiv
      | true =>
        cases hh : host.patch_ok with
        | false =>
          rw [body_mounted_dirty_err U host i w parent nxt comp hcomp hcond hh] at hdiv
          simp at hdiv
        | true =>
          rw [body_mounted_dirty_ok U host i w parent nxt comp hcomp hcond hh] at hdiv ⊢
          dsimp only at hdiv ⊢
          rw [liveAfter_append, liveAfter_rerender_evs]
          exact render_walk_cache U host i fuel _ parent nxt true
            (by constructor <;> simp [KeyedVNodes.attach]) hdiv

theorem remove_cache (U : Universe) (host : Host) (i : U.Idx)
    (w : ComponentWrapper U i) (parent : Node) (live : Bool)
    (hw : CacheInv U i w live)
    (hout : (remove U host i w parent).out = .ok ∨
      (remove U host i w parent).out = .diverge) :
    CacheInv U i (remove U host i w parent).w
      (liveAfter U i live (remove U host i w parent).evs) := by
  cases hcr : w.cached_render with
  | none =>
    rw [remove_none_eq U host i w parent hcr]
    simpa [liveAfter] using hw
  | some t =>
    cases hh : host.remove_ok with
    | false =>
      rw [remove_some_err U host i w parent t hcr hh] at hout
      simp at hout
    | true =>
      cases hc : w.component with
      | none =>
        rw [remove_some_panic U host i w parent t hcr hc hh] at hout
        simp at hout
      | some c =>
        rw [remove_some_eq U host i w parent t c hcr hc hh]
        refine ⟨?_, by simp⟩
        simp [liveAfter]

theorem reach_wrapper_inv (U : Universe) (i : U.Idx) :
    ∀ (w : ComponentWrapper U i) (live : Bool), WrapperReach U i w live →
      WrapperInv U i w := by
  intro w live h
  induction h with
  | init p => exact ⟨by simp [ComponentWrapper.new], by simp [ComponentWrapper.new]⟩
  | step_walk w live host fuel parent nxt _ houts ih =>
    rcases houts with hout | hout
    · exact absurd hout (render_walk_not_ok U host i fuel w parent nxt)
    · exact (render_walk_no_panic U host i fuel w parent nxt ih).2 hout
  | step_patch w live host fuel old parent nxt _ houts ih =>
    exact patch_wrapper_inv U host i fuel w old parent nxt ih houts
  | step_remove w live host parent _ houts ih =>
    exact remove_wrapper_inv U host i w parent ih

theorem reach_cache_inv (U : Universe) (i : U.Idx) :
    ∀ (w : ComponentWrapper U i) (live : Bool), WrapperReach U i w live →
      CacheInv U i w live := by
  intro w live h
  induction h with
  | init p => exact ⟨by simp [ComponentWrapper.new], by simp [ComponentWrapper.new]⟩
  | step_walk w live host fuel parent nxt _ houts ih =>
    rcases houts with hout | hout
    · exact absurd hout (render_walk_not_ok U host i fuel w parent nxt)
    · exact render_walk_cache U host i fuel w parent nxt live ih hout
  | step_patch w live host fuel old parent nxt _ houts ih =>
    cases old with
    | none =>
      rw [patch_none_eq] at houts ⊢
      rcases houts with hout | hout
      · exact absurd hout (render_walk_not_ok U host i fuel w parent nxt)
      · exact render_walk_cache U host i fuel w parent nxt live ih hout
    | some o =>
      by_cases hro : (remove U host o.idx o.w parent).out = .ok
      · rw [patch_some_eq U host i fuel w o parent nxt hro] at houts ⊢
        dsimp only at houts ⊢
        rcases houts with hout | hout
        · exact absurd hout (render_walk_not_ok U host i fuel w parent nxt)
        · exact render_walk_cache U host i fuel w parent nxt live ih hout
      · rw [patch_some_fail U host i fuel w o parent nxt hro] at houts
        dsimp only at houts
        rcases houts with hout | hout
        · exact absurd hout hro
        · exact absurd hout (remove_out_ne_diverge U host o.idx o.w parent)
  | step_remove w live host parent _ houts ih =>
    exact remove_cache U host i w parent live ih houts

/-- `patch` against any old occupant that is mounted and rendered, with all
document operations succeeding: since `try_cast` never succeeds, the old
occupant's subtree is detached and its `destroyed` hook fires (exactly once),
then the new component mounts fresh (`created` fires exactly once, with the
first document patch diffing against no previous tree), no `updated` hook is
ever invoked, and the call never returns `Ok`. -/
theorem patch_old_removes_then_mounts (U : Universe) (host : Host) (i : U.Idx)
    (fuel : Nat) (parent : Node) (nxt : Option Node) (p : U.P i)
    (o : ErasedManager U) (t : KeyedVNodes) (c : U.C o.idx)
    (hoct : o.w.cached_render = some t) (hoc : o.w.component = some c)
    (hrm : host.remove_ok = true) (hh : host.patch_ok = true) :
    ((patch U host i (fuel+1) (ComponentWrapper.new U i p) (some o) parent nxt).evs.take 5 =
      [.dom_remove o.idx parent, .destroyed o.idx] ++ mount_evs U i parent nxt) ∧
    ((patch U host i (fuel+1) (ComponentWrapper.new U i p) (some o) parent nxt).evs.countP
        Event.is_destroyed = 1) ∧
    ((patch U host i (fuel+1) (ComponentWrapper.new U i p) (some o) parent nxt).evs.countP
        Event.is_created = 1) ∧
    ((patch U host i (fuel+1) (ComponentWrapper.new U i p) (some o) parent nxt).evs.countP
        Event.is_updated = 0) ∧
    ((patch U host i (fuel+1) (ComponentWrapper.new U i p) (some o) parent nxt).out ≠ .ok) := by
  have hm : (ComponentWrapper.new U i p).component = none := rfl
  have hp : (ComponentWrapper.new U i p).props = some p := rfl
  have hrem := remove_some_eq U host o.idx o.w parent t c hoct hoc hrm
  have hro : (remove U host o.idx o.w parent).out = .ok := by
    rw [hrem]
  have heq := patch_some_eq U host i (fuel+1) (ComponentWrapper.new U i p) o parent nxt hro
  have hrest := render_walk_mounted_no_lifecycle U host i fuel
    ⟨some (mounted_instance U i p), none,
      some (KeyedVNodes.attach ((U.model i).render (mounted_instance U i p)))⟩
    parent nxt (by simp)
  have hwalk : render_walk U host i (fuel+1) (ComponentWrapper.new U i p) parent nxt =
      ⟨(render_walk U host i fuel
          ⟨some (mounted_instance U i p), none,
            some (KeyedVNodes.attach ((U.model i).render (mounted_instance U i p)))⟩ parent nxt).out,
       (render_walk U host i fuel
          ⟨some (mounted_instance U i p), none,
            some (KeyedVNodes.attach ((U.model i).render (mounted_instance U i p)))⟩ parent nxt).w,
       mount_evs U i parent nxt ++
         (render_walk U host i fuel
            ⟨some (mounted_instance U i p), none,
              some (KeyedVNodes.attach ((U.model i).render (mounted_instance U i p)))⟩ parent nxt).evs⟩ := by
    conv_lhs => unfold render_walk
    rw [body_unmounted_ok U host i (ComponentWrapper.new U i p) parent nxt p hm hp hh]
  refine ⟨?_, ?_, ?_, ?_, ?_⟩
  · rw [heq]
    dsimp only
    rw [hrem, hwalk]
    dsimp only
    simp [mount_evs]
  · rw [heq]
    dsimp only
    rw [hrem, hwalk]
    dsimp only
    simp [mount_evs, Event.is_destroyed, hrest.1.2.2]
  · rw [heq]
    dsimp only
    rw [hrem, hwalk]
    dsimp only
    simp [mount_evs, Event.is_created, Event.is_destroyed, hrest.1.1]
  · rw [heq]
    dsimp only
    rw [hrem, hwalk]
    dsimp only
    simp [mount_evs, Event.is_updated, hrest.1.2.1]
  · rw [heq]
    dsimp only
    exact render_walk_not_ok U host i (fuel+1) _ parent nxt

end ComponentManagerLemmas

/-! ## Concrete instances used by the witnesses -/

/-- A concrete component model whose props are always dirty and whose `update`
reports the old props exactly when they changed. -/
abbrev MW0 : RenderableComponent Nat Nat Nat where
  init := fun p s => p + s
  defaultState := 0
  render := fun c => ⟨none, c, false⟩
  update := fun c p => (if p = c then none else some c, p)
  is_state_dirty := fun _ => false
  refresh_state := fun c => (false, c)
  is_props_dirty := fun _ => true

/-- A concrete component model that is never dirty. -/
abbrev MW1 : RenderableComponent Nat Nat Nat where
  init := fun p s => p + s
  defaultState := 0
  render := fun c => ⟨none, c, false⟩
  update := fun c p => (some c, p)
  is_state_dirty := fun _ => false
  refresh_state := fun c => (false, c)
  is_props_dirty := fun _ => false

/-- A concrete component model whose state is dirty but whose `refresh_state`
reports no effective change, and whose props are never dirty. -/
abbrev MW2 : RenderableComponent Nat Nat Nat where
  init := fun p s => p + s
  defaultState := 0
  render := fun c => ⟨none, c, false⟩
  update := fun c p => (some c, p)
  is_state_dirty := fun _ => true
  refresh_state := fun c => (false, c + 1)
  is_props_dirty := fun _ => false

/-- A concrete universe of component types for the witnesses: index 1 is the
never-dirty model, index 2 the state-dirty-but-unchanged model, every other
index the always-props-dirty model. -/
abbrev UW : Universe where
  Idx := Nat
  deq := inferInstance
  C := fun _ => Nat
  P := fun _ => Nat
  S := fun _ => Nat
  model := fun i => if i = 1 then MW1 else if i = 2 then MW2 else MW0

/-- A document host whose primitive operations all succeed. -/
abbrev host0 : Host := ⟨true, true⟩

open ComponentManager ComponentManagerLemmas

/-! ## The claims -/

/-- Claim C2: the claim states that after handling its own render-or-skip
decision, `render_walk` recurses into the wrapper's cached rendered subtree and
terminates. The code instead tail-calls `self.render_walk(parent, next)`
unconditionally (vcomponent.rs line 126), so no invocation ever returns `Ok`:
for every fuel bound the embedded `render_walk` either propagates a failure or
runs out of fuel, never completing successfully. This refutes the claim and
witnesses the non-termination code bug. -/
theorem claim_render_walk_self_recursion_never_returns (U : Universe) (host : Host)
    (i : U.Idx) (fuel : Nat) (w : ComponentWrapper U i) (parent : Node)
    (nxt : Option Node) :
    (ComponentManager.render_walk U host i fuel w parent nxt).out ≠ .ok :=
  render_walk_not_ok U host i fuel w parent nxt

/-- Claim C7: a further `render_walk` on a mounted wrapper whose component
reports clean state and clean props performs no document mutation at that
node: no event at all is produced (in particular no `render` call and no
document patch) and the wrapper — including its cached render — is unchanged.
Additionally, when the state is dirty but `refresh_state` reports `false` and
props are clean, one body iteration likewise renders nothing, patches nothing,
and leaves the cache unchanged. -/
theorem claim_clean_render_walk_no_mutation :
    (∀ (U : Universe) (host : Host) (i : U.Idx) (fuel : Nat)
       (w : ComponentWrapper U i) (parent : Node) (nxt : Option Node) (comp : U.C i),
       w.component = some comp →
       (U.model i).is_state_dirty comp = false →
       (U.model i).is_props_dirty comp = false →
       ComponentManager.render_walk U host i fuel w parent nxt = ⟨.diverge, w, []⟩) ∧
    (∀ (U : Universe) (host : Host) (i : U.Idx)
       (w : ComponentWrapper U i) (parent : Node) (nxt : Option Node)
       (comp comp1 : U.C i),
       w.component = some comp →
       (U.model i).is_state_dirty comp = true →
       (U.model i).refresh_state comp = (false, comp1) →
       (U.model i).is_props_dirty comp1 = false →
       render_walk_body U host i w parent nxt =
         .next { w with component := some comp1 } []) := by
  constructor
  · exact fun U host i fuel w parent nxt comp =>
      render_walk_clean U host i fuel w parent nxt comp
  · intro U host i w parent nxt comp comp1 hm hsd hrf hpd
    have hsc : state_change U i comp = (false, comp1) := by
      simp [state_change, hsd, hrf]
    have hcond : ((state_change U i comp).1 ||
        (U.model i).is_props_dirty (state_change U i comp).2) = false := by
      simp [hsc, hpd]
    have := body_mounted_clean U host i w parent nxt comp hm hcond
    rwa [hsc] at this

/-- Witness for claim C7 at concrete inputs: the never-dirty model (index 1 of
the witness universe) walks without producing any event or touching the
wrapper for fuel 5, and the state-dirty-but-unchanged model (index 2) performs
a body iteration with no event. -/
theorem claim_clean_render_walk_no_mutation_witness :
    ComponentManager.render_walk UW host0 1 5 ⟨some 3, none, some ⟨none, 9, true⟩⟩ 100 none =
      ⟨.diverge, ⟨some 3, none, some ⟨none, 9, true⟩⟩, []⟩ ∧
    render_walk_body UW host0 2 ⟨some 3, none, some ⟨none, 9, true⟩⟩ 100 none =
      .next ⟨some 4, none, some ⟨none, 9, true⟩⟩ [] :=
  ⟨claim_clean_render_walk_no_mutation.1 UW host0 1 5 _ 100 none 3 rfl rfl rfl,
   claim_clean_render_walk_no_mutation.2 UW host0 2 _ 100 none 3 4 rfl rfl rfl rfl⟩

/-- Claim C9: mounting the App on a string identifier that does not resolve to
a live element panics (a process-terminating outcome, not a recoverable error
value): `app_mount_str` yields the `panicked` outcome and never a mounted
element when `get_element_by_id` finds nothing. -/
theorem claim_mount_missing_element_panics (d : HostDocument) (id : String)
    (h : d.get_element_by_id id = none) :
    app_mount_str d id = .panicked ∧ ∀ e, app_mount_str d id ≠ .mounted e := by
  constructor
  · simp [app_mount_str, h]
  · intro e
    simp [app_mount_str, h]

/-- Witness for claim C9: the empty document resolves no identifier, so
mounting on `"app"` panics. -/
theorem claim_mount_missing_element_panics_witness :
    app_mount_str ⟨[]⟩ "app" = .panicked :=
  (claim_mount_missing_element_panics ⟨[]⟩ "app" rfl).1

/-- Claim C3 counterexample: the claim states that the wake-up handler clears
the pending flag before running the render pass, so one `notify()` from inside
the render body schedules exactly one additional future render pass (one
message in flight, a second post). In the code (lib.rs lines 208-213) the
handler runs the render first and clears the flag afterwards: starting from
the state with one pending wake-up and one post, delivering it with one
in-render `notify()` leaves zero messages in flight and the post counter
unchanged — the in-render notify was a no-op, refuting the claim. -/
theorem claim_notify_during_render_counterexample :
    (react_on_message 1 ⟨true, 1, 1, 0⟩).in_flight = 0 ∧
    (react_on_message 1 ⟨true, 1, 1, 0⟩).posts = 1 ∧
    ¬ ((react_on_message 1 ⟨true, 1, 1, 0⟩).in_flight = 1) := by
  decide

theorem do_react_queued (s : SchedState) (h : s.is_queued = true) : do_react s = s := by
  simp [do_react, h]

theorem do_react_iterate_queued :
    ∀ (k : Nat) (s : SchedState), s.is_queued = true → do_react^[k] s = s
  | 0, s, _ => rfl
  | k+1, s, h => by
    rw [Function.iterate_succ_apply, do_react_queued s h,
      do_react_iterate_queued k s h]

theorem react_on_message_queued (k : Nat) (s : SchedState)
    (h : s.is_queued = true) :
    react_on_message k s = ⟨false, s.in_flight - 1, s.posts, s.renders + 1⟩ := by
  unfold react_on_message
  dsimp only
  rw [do_react_iterate_queued k ⟨s.is_queued, s.in_flight - 1, s.posts, s.renders + 1⟩ h]

/-- Claim C3 (amended): when the asynchronous wake-up fires, the handler runs
the render pass first and clears the pending flag only afterwards, so every
`notify()` made from inside the render body finds the flag still set and is a
no-op: the delivered wake-up is consumed, one render pass runs, no new message
is posted, and the flag ends cleared. -/
theorem claim_wakeup_clears_pending_after_render (k : Nat) (s : SchedState)
    (h : s.is_queued = true) :
    react_on_message k s = ⟨false, s.in_flight - 1, s.posts, s.renders + 1⟩ :=
  react_on_message_queued k s h

/-- Witness for the amended claim C3 at a concrete input. -/
theorem claim_wakeup_clears_pending_after_render_witness :
    react_on_message 2 ⟨true, 1, 1, 0⟩ = ⟨false, 0, 1, 1⟩ :=
  claim_wakeup_clears_pending_after_render 2 ⟨true, 1, 1, 0⟩ rfl

theorem sched_inv (s : SchedState) (h : SchedReach s) :
    s.in_flight = if s.is_queued then 1 else 0 := by
  induction h with
  | init => rfl
  | step_react s hs ih =>
    by_cases hq : s.is_queued = true
    · rw [do_react_queued s hq, ih]
    · have hq' : s.is_queued = false := by
        cases hb : s.is_queued
        · rfl
        · exact absurd hb hq
      simp [do_react, hq', ih]
  | step_message s k hs hfl ih =>
    have hq : s.is_queued = true := by
      by_contra hq
      have hq' : s.is_queued = false := by
        cases hb : s.is_queued
        · rfl
        · exact absurd hb hq
      rw [ih, if_neg (by simp [hq'])] at hfl
      exact absurd hfl (by simp)
    rw [react_on_message_queued k s hq]
    simp [ih, hq]

/-- Claim C4: the scheduler posts exactly one wake-up per coalescing window.
For every `k ≥ 1`, calling `do_react` `k` times from a state with the pending
flag clear sets the flag, posts exactly one message, and leaves everything
else unchanged (the first call posts, every later call is a no-op); and in
every reachable scheduler state at most one wake-up is in flight. -/
theorem claim_notify_coalesces_single_post :
    (∀ (k : Nat) (s : SchedState), 1 ≤ k → s.is_queued = false →
      do_react^[k] s =
        { s with is_queued := true, in_flight := s.in_flight + 1, posts := s.posts + 1 }) ∧
    (∀ s : SchedState, s.is_queued = true → do_react s = s) ∧
    (∀ s : SchedState, SchedReach s → s.in_flight ≤ 1) := by
  refine ⟨?_, do_react_queued, ?_⟩
  · intro k s hk hq
    cases k with
    | zero => exact absurd hk (by simp)
    | succ j =>
      rw [Function.iterate_succ_apply]
      have hstep : do_react s =
          { s with is_queued := true, in_flight := s.in_flight + 1, posts := s.posts + 1 } := by
        simp [do_react, hq]
      rw [hstep, do_react_iterate_queued j _ rfl]
  · intro s hs
    rw [sched_inv s hs]
    by_cases hq : s.is_queued = true
    · rw [if_pos hq]
    · rw [if_neg hq]
      exact Nat.zero_le 1

/-- Witness for claim C4 at concrete inputs: three notifies from the initial
state post exactly one message, and the initial state has at most one wake-up
in flight. -/
theorem claim_notify_coalesces_single_post_witness :
    do_react^[3] SchedState.init =
      { SchedState.init with is_queued := true,
                             in_flight := SchedState.init.in_flight + 1,
                             posts := SchedState.init.posts + 1 } ∧
    SchedState.init.in_flight ≤ 1 :=
  ⟨claim_notify_coalesces_single_post.1 3 SchedState.init (by decide) rfl,
   claim_notify_coalesces_single_post.2.2 SchedState.init SchedReach.init⟩

/-- Claim C5: mounting a component fresh — `patch` with no old occupant on a
newly constructed wrapper, with the document operations succeeding — consumes
the stored initial props, constructs the instance via `init` with the default
state, fires `created` then renders and patches the first render into the host
with no previous tree, and caches the attached result; and across the whole
walk `created` is invoked exactly once and `updated` never. -/
theorem claim_fresh_mount_lifecycle (U : Universe) (host : Host) (i : U.Idx)
    (parent : Node) (nxt : Option Node) (p : U.P i) (hh : host.patch_ok = true) :
    ((ComponentManager.patch U host i 1 (ComponentWrapper.new U i p) none parent nxt).w.props
        = none ∧
      (ComponentManager.patch U host i 1 (ComponentWrapper.new U i p) none parent nxt).w.component
        = some (mounted_instance U i p) ∧
      (ComponentManager.patch U host i 1 (ComponentWrapper.new U i p) none parent nxt).w.cached_render
        = some (KeyedVNodes.attach ((U.model i).render (mounted_instance U i p))) ∧
      (ComponentManager.patch U host i 1 (ComponentWrapper.new U i p) none parent nxt).evs
        = mount_evs U i parent nxt) ∧
    (∀ fuel : Nat,
      (ComponentManager.patch U host i (fuel+1) (ComponentWrapper.new U i p) none parent nxt).evs.countP
        Event.is_created = 1) ∧
    (∀ fuel : Nat,
      (ComponentManager.patch U host i fuel (ComponentWrapper.new U i p) none parent nxt).evs.countP
        Event.is_updated = 0) := by
  have hm : (ComponentWrapper.new U i p).component = none := rfl
  have hp : (ComponentWrapper.new U i p).props = some p := rfl
  refine ⟨?_, ?_, ?_⟩
  · rw [patch_none_eq]
    unfold render_walk
    rw [body_unmounted_ok U host i (ComponentWrapper.new U i p) parent nxt p hm hp hh]
    dsimp only [render_walk]
    refine ⟨rfl, rfl, rfl, ?_⟩
    simp
  · intro fuel
    rw [patch_none_eq]
    unfold render_walk
    rw [body_unmounted_ok U host i (ComponentWrapper.new U i p) parent nxt p hm hp hh]
    dsimp only
    have hrest := (render_walk_mounted_no_lifecycle U host i fuel
      ⟨some (mounted_instance U i p), none,
        some (KeyedVNodes.attach ((U.model i).render (mounted_instance U i p)))⟩
      parent nxt (by simp)).1.1
    simp [List.countP_append, mount_evs, Event.is_created, hrest]
  · intro fuel
    rw [patch_none_eq]
    cases fuel with
    | zero => simp [render_walk]
    | succ j =>
      unfold render_walk
      rw [body_unmounted_ok U host i (ComponentWrapper.new U i p) parent nxt p hm hp hh]
      dsimp only
      have hrest := (render_walk_mounted_no_lifecycle U host i j
        ⟨some (mounted_instance U i p), none,
          some (KeyedVNodes.attach ((U.model i).render (mounted_instance U i p)))⟩
        parent nxt (by simp)).1.2.1
      simp [List.countP_append, mount_evs, Event.is_updated, hrest]

/-- Witness for claim C5 at concrete inputs: mounting the always-props-dirty
model with props 5 into node 100 produces exactly the mount events at fuel 1,
exactly one `created` at fuel 3, and no `updated`. -/
theorem claim_fresh_mount_lifecycle_witness :
    (ComponentManager.patch UW host0 0 1 (ComponentWrapper.new UW 0 5) none 100 none).evs
      = mount_evs UW 0 100 none ∧
    (ComponentManager.patch UW host0 0 3 (ComponentWrapper.new UW 0 5) none 100 none).evs.countP
      Event.is_created = 1 ∧
    (ComponentManager.patch UW host0 0 3 (ComponentWrapper.new UW 0 5) none 100 none).evs.countP
      Event.is_updated = 0 :=
  ⟨(claim_fresh_mount_lifecycle UW host0 0 100 none 5 rfl).1.2.2.2,
   (claim_fresh_mount_lifecycle UW host0 0 100 none 5 rfl).2.1 2,
   (claim_fresh_mount_lifecycle UW host0 0 100 none 5 rfl).2.2 3⟩

/-- Claim C1: the claim states that when a new wrapper's `patch` receives an
old occupant wrapping the same concrete component type, `try_cast` succeeds,
the old live instance and its cached render are reused, the new props go to
the instance's `update` hook (`updated` firing exactly when it returns the old
props), `created`/`destroyed` do not fire, and the transplanted cache is the
next diff base. The code does the opposite: vcomponent.rs line 43 casts
`&other` — the `Box<dyn ComponentManager>` itself — to `&Any`, so the
`is::<ComponentWrapper<COMP>>()` check never matches and `try_cast` returns
`Err` even when the concrete types coincide; the reuse branch (lines 137-148)
is dead code, contradicting its own comments and the spec. A same-type patch
therefore detaches the old subtree and fires its `destroyed` hook (exactly
once), then mounts a fresh instance (`created` fires exactly once and the
first document patch diffs against no previous tree — the raw document, not
the old cache), and `update`/`updated` are never invoked (no `updated` event
occurs in the trace). -/
theorem claim_same_type_patch_destroys_and_remounts (U : Universe) (host : Host)
    (i : U.Idx) (fuel : Nat) (parent : Node) (nxt : Option Node) (p : U.P i)
    (ow : ComponentWrapper U i) (t : KeyedVNodes) (c : U.C i)
    (hoct : ow.cached_render = some t) (hoc : ow.component = some c)
    (hrm : host.remove_ok = true) (hh : host.patch_ok = true) :
    (ComponentWrapper.try_cast U i ⟨i, ow⟩ = .error ⟨i, ow⟩) ∧
    ((ComponentManager.patch U host i (fuel+1) (ComponentWrapper.new U i p)
        (some ⟨i, ow⟩) parent nxt).evs.take 5 =
      [.dom_remove i parent, .destroyed i] ++ mount_evs U i parent nxt) ∧
    ((ComponentManager.patch U host i (fuel+1) (ComponentWrapper.new U i p)
        (some ⟨i, ow⟩) parent nxt).evs.countP Event.is_destroyed = 1) ∧
    ((ComponentManager.patch U host i (fuel+1) (ComponentWrapper.new U i p)
        (some ⟨i, ow⟩) parent nxt).evs.countP Event.is_created = 1) ∧
    ((ComponentManager.patch U host i (fuel+1) (ComponentWrapper.new U i p)
        (some ⟨i, ow⟩) parent nxt).evs.countP Event.is_updated = 0) :=
  ⟨try_cast_err U i ⟨i, ow⟩,
   (patch_old_removes_then_mounts U host i fuel parent nxt p ⟨i, ow⟩ t c
      hoct hoc hrm hh).1,
   (patch_old_removes_then_mounts U host i fuel parent nxt p ⟨i, ow⟩ t c
      hoct hoc hrm hh).2.1,
   (patch_old_removes_then_mounts U host i fuel parent nxt p ⟨i, ow⟩ t c
      hoct hoc hrm hh).2.2.1,
   (patch_old_removes_then_mounts U host i fuel parent nxt p ⟨i, ow⟩ t c
      hoct hoc hrm hh).2.2.2.1⟩

/-- Witness for claim C1 at concrete inputs: both occupants have the same
concrete component type (index 0 of the witness universe); the old wrapper
holds instance 3 and an attached cache rooted at node 9, the new wrapper
props 5. `try_cast` still fails, the destroyed-then-created sequence happens,
and no `updated` event occurs. -/
theorem claim_same_type_patch_destroys_and_remounts_witness :
    (ComponentWrapper.try_cast UW 0 ⟨0, ⟨some 3, none, some ⟨none, 9, true⟩⟩⟩ =
      .error ⟨0, ⟨some 3, none, some ⟨none, 9, true⟩⟩⟩) ∧
    ((ComponentManager.patch UW host0 0 2 (ComponentWrapper.new UW 0 5)
        (some ⟨0, ⟨some 3, none, some ⟨none, 9, true⟩⟩⟩) 100 none).evs.take 5 =
      [.dom_remove 0 100, .destroyed 0] ++ mount_evs UW 0 100 none) ∧
    ((ComponentManager.patch UW host0 0 2 (ComponentWrapper.new UW 0 5)
        (some ⟨0, ⟨some 3, none, some ⟨none, 9, true⟩⟩⟩) 100 none).evs.countP
      Event.is_updated = 0) :=
  ⟨(claim_same_type_patch_destroys_and_remounts UW host0 0 1 100 none 5
      ⟨some 3, none, some ⟨none, 9, true⟩⟩ ⟨none, 9, true⟩ 3 rfl rfl rfl rfl).1,
   (claim_same_type_patch_destroys_and_remounts UW host0 0 1 100 none 5
      ⟨some 3, none, some ⟨none, 9, true⟩⟩ ⟨none, 9, true⟩ 3 rfl rfl rfl rfl).2.1,
   (claim_same_type_patch_destroys_and_remounts UW host0 0 1 100 none 5
      ⟨some 3, none, some ⟨none, 9, true⟩⟩ ⟨none, 9, true⟩ 3 rfl rfl rfl rfl).2.2.2.2⟩

/-- Claim C6: patching a new wrapper against an old occupant of a different
concrete type, with all document operations succeeding, is a defined
control-flow branch and not an error: the old subtree is detached from the
document and its `destroyed` hook fires (exactly once), before the new
component mounts fresh (`created` fires exactly once, right after), and no
`updated` hook fires on either occupant. However the claim's final part — that
`patch` returns `Ok` when the document operations succeed — fails on the code:
because of the `render_walk` self-recursion the call never returns `Ok` for
any fuel bound. -/
theorem claim_type_mismatch_removes_then_mounts (U : Universe) (host : Host)
    (i : U.Idx) (fuel : Nat) (parent : Node) (nxt : Option Node) (p : U.P i)
    (o : ErasedManager U) (t : KeyedVNodes) (c : U.C o.idx)
    (hne : o.idx ≠ i) (hoct : o.w.cached_render = some t) (hoc : o.w.component = some c)
    (hrm : host.remove_ok = true) (hh : host.patch_ok = true) :
    ((ComponentManager.patch U host i (fuel+1) (ComponentWrapper.new U i p) (some o) parent nxt).evs.take 5 =
      [.dom_remove o.idx parent, .destroyed o.idx] ++ mount_evs U i parent nxt) ∧
    ((ComponentManager.patch U host i (fuel+1) (ComponentWrapper.new U i p) (some o) parent nxt).evs.countP
        Event.is_destroyed = 1) ∧
    ((ComponentManager.patch U host i (fuel+1) (ComponentWrapper.new U i p) (some o) parent nxt).evs.countP
        Event.is_created = 1) ∧
    ((ComponentManager.patch U host i (fuel+1) (ComponentWrapper.new U i p) (some o) parent nxt).evs.countP
        Event.is_updated = 0) ∧
    ((ComponentManager.patch U host i (fuel+1) (ComponentWrapper.new U i p) (some o) parent nxt).out ≠ .ok) :=
  patch_old_removes_then_mounts U host i fuel parent nxt p o t c hoct hoc hrm hh

/-- Witness for claim C6 at concrete inputs: old occupant of type index 1
(never dirty), rendered and live, replaced by a fresh component of type
index 0 with props 5. -/
theorem claim_type_mismatch_removes_then_mounts_witness :
    ((ComponentManager.patch UW host0 0 2 (ComponentWrapper.new UW 0 5)
        (some ⟨1, ⟨some 3, none, some ⟨none, 9, true⟩⟩⟩) 100 none).evs.take 5 =
      [.dom_remove 1 100, .destroyed 1] ++ mount_evs UW 0 100 none) ∧
    ((ComponentManager.patch UW host0 0 2 (ComponentWrapper.new UW 0 5)
        (some ⟨1, ⟨some 3, none, some ⟨none, 9, true⟩⟩⟩) 100 none).out ≠ .ok) :=
  ⟨(claim_type_mismatch_removes_then_mounts UW host0 0 1 100 none 5
      ⟨1, ⟨some 3, none, some ⟨none, 9, true⟩⟩⟩ ⟨none, 9, true⟩ 3
      (by decide) rfl rfl rfl rfl).1,
   (claim_type_mismatch_removes_then_mounts UW host0 0 1 100 none 5
      ⟨1, ⟨some 3, none, some ⟨none, 9, true⟩⟩⟩ ⟨none, 9, true⟩ 3
      (by decide) rfl rfl rfl rfl).2.2.2.2⟩

/-- Claim C8: `remove` on a wrapper that was never rendered (no cached render)
is a no-op returning `Ok` with no event; on a rendered wrapper with a live
instance and a succeeding document host it detaches the cached subtree from
the document, then invokes `destroyed`, and drops the cache. Consequently, in
every reachable wrapper state a cached render exists exactly when the node has
been rendered into the document and not removed since, and `node()` returns
none exactly when there is no cached render. -/
theorem claim_remove_noop_and_cache_iff (U : Universe) (host : Host) (i : U.Idx)
    (w : ComponentWrapper U i) (parent : Node) :
    (w.cached_render = none →
      ComponentManager.remove U host i w parent = ⟨.ok, w, []⟩) ∧
    (∀ (t : KeyedVNodes) (c : U.C i),
      w.cached_render = some t → w.component = some c → host.remove_ok = true →
      ComponentManager.remove U host i w parent =
        ⟨.ok, { w with cached_render := none },
         [.dom_remove i parent, .destroyed i]⟩) ∧
    (∀ live : Bool, WrapperReach U i w live →
      w.cached_render.isSome = live ∧
      (ComponentManager.node U i w = none ↔ w.cached_render = none)) := by
  refine ⟨fun hcr => remove_none_eq U host i w parent hcr,
          fun t c hcr hc hh => remove_some_eq U host i w parent t c hcr hc hh,
          ?_⟩
  intro live hreach
  have ci := reach_cache_inv U i w live hreach
  refine ⟨ci.1, ?_⟩
  cases hcr : w.cached_render with
  | none => simp [ComponentManager.node, hcr]
  | some t =>
    have hatt := ci.2 t hcr
    simp [ComponentManager.node, hcr, KeyedVNodes.node, hatt]

/-- Witness for claim C8 at concrete inputs: removing a never-rendered fresh
wrapper is an eventless `Ok` no-op; removing a rendered wrapper detaches,
destroys and drops the cache; and the fresh reachable state (flag `false`)
has no cache and a `none` node. -/
theorem claim_remove_noop_and_cache_iff_witness :
    (ComponentManager.remove UW host0 0 (ComponentWrapper.new UW 0 5) 100 =
      ⟨.ok, ComponentWrapper.new UW 0 5, []⟩) ∧
    (ComponentManager.remove UW host0 0 ⟨some 3, none, some ⟨none, 9, true⟩⟩ 100 =
      ⟨.ok, ⟨some 3, none, none⟩, [.dom_remove 0 100, .destroyed 0]⟩) ∧
    ((ComponentWrapper.new UW 0 5).cached_render.isSome = false ∧
      (ComponentManager.node UW 0 (ComponentWrapper.new UW 0 5) = none ↔
        (ComponentWrapper.new UW 0 5).cached_render = none)) :=
  ⟨(claim_remove_noop_and_cache_iff UW host0 0 (ComponentWrapper.new UW 0 5) 100).1 rfl,
   (claim_remove_noop_and_cache_iff UW host0 0 ⟨some 3, none, some ⟨none, 9, true⟩⟩ 100).2.1
     ⟨none, 9, true⟩ 3 rfl rfl rfl,
   (claim_remove_noop_and_cache_iff UW host0 0 (ComponentWrapper.new UW 0 5) 100).2.2
     false (WrapperReach.init 5)⟩

/-- Claim C10: in every wrapper state reachable through the public protocol
along panic-free, document-failure-free executions, a held cached render
implies a held component instance (the two are set together on first render
and only the cache is taken on `remove`), and therefore the `unwrap` of the
component inside `remove`, and `render_walk` as a whole (including the
`unwrap` in its already-mounted branch), never panic from such a state. -/
theorem claim_cached_render_implies_component (U : Universe) (i : U.Idx)
    (w : ComponentWrapper U i) (live : Bool) (hreach : WrapperReach U i w live) :
    (w.cached_render.isSome = true → w.component.isSome = true) ∧
    (∀ (host : Host) (parent : Node),
      (ComponentManager.remove U host i w parent).out ≠ .panic) ∧
    (∀ (host : Host) (fuel : Nat) (parent : Node) (nxt : Option Node),
      (ComponentManager.render_walk U host i fuel w parent nxt).out ≠ .panic) := by
  have inv := reach_wrapper_inv U i w live hreach
  exact ⟨inv.1,
    fun host parent => remove_no_panic U host i w parent inv.1,
    fun host fuel parent nxt => (render_walk_no_panic U host i fuel w parent nxt inv).1⟩

/-- Witness for claim C10 at a concrete reachable state: the freshly
constructed wrapper of the always-props-dirty model. -/
theorem claim_cached_render_implies_component_witness :
    ((ComponentWrapper.new UW 0 5).cached_render.isSome = true →
      (ComponentWrapper.new UW 0 5).component.isSome = true) ∧
    (ComponentManager.remove UW host0 0 (ComponentWrapper.new UW 0 5) 100).out ≠ .panic ∧
    (ComponentManager.render_walk UW host0 0 4 (ComponentWrapper.new UW 0 5) 100 none).out ≠ .panic :=
  ⟨(claim_cached_render_implies_component UW 0 (ComponentWrapper.new UW 0 5) false
      (WrapperReach.init 5)).1,
   (claim_cached_render_implies_component UW 0 (ComponentWrapper.new UW 0 5) false
      (WrapperReach.init 5)).2.1 host0 100,
   (claim_cached_render_implies_component UW 0 (ComponentWrapper.new UW 0 5) false
      (WrapperReach.init 5)).2.2 host0 4 100 none⟩
